import Mathlib

/-!
Verification development for a minimal feed-forward neural-network
training engine (`model.py`, `layers/dropout.py`).

The Python code is shallowly embedded:
* numpy arrays become `NDArray` (a shape together with row-major flat
  rational data); boolean mask arrays become `BoolArray`;
* Python exceptions become the `Err` type, and fallible operations
  return `Except Err _`;
* the stochastic sources (`np.random.default_rng()` streams) are passed
  in explicitly: the per-element uniform draws of `Dropout.forward` as a
  function `ℕ → ℚ`, and the per-epoch shuffling permutations of
  `Model.fit` as a function `ℕ → List ℕ`;
* layers that belong to the repository but are outside the provided
  sources (`InputLayer`, `Dense`, the loss classes, ...) are modelled
  from the spec as opaque records of functions.
-/

/-- The Python exception kinds raised by the embedded code. -/
inductive Err where
  | typeError
  | valueError
  | attributeError
  | indexError
  | zeroDivisionError
deriving DecidableEq, Repr

deriving instance DecidableEq for Except

/-- A numpy array of rationals: a shape and row-major flat data.
`shape.prod = data.length` for the arrays produced by the library code;
the operations below only ever rely on the parts they inspect. -/
structure NDArray where
  shape : List ℕ
  data : List ℚ
deriving DecidableEq, Repr

/-- A numpy array of booleans (a dropout mask). -/
structure BoolArray where
  shape : List ℕ
  data : List Bool
deriving DecidableEq, Repr

/-- The `Dropout` layer state (`layers/dropout.py`).  `RATE` is fixed at
construction; `units`, `network_id` and `is_compiled` are set by
`compile`; `dropout_filter` caches the boolean mask of the most recent
training-mode `forward` call.  Uncompiled layers have `units = none`
(Python `None`) and an empty `network_id`. -/
structure Dropout where
  RATE : ℚ
  units : Option ℕ
  network_id : Option String
  is_compiled : Bool
  dropout_filter : Option BoolArray
deriving DecidableEq, Repr

namespace Dropout

/-- `Dropout.__init__` (dropout.py lines 14-33): checks `0 < rate < 1`
(raising `ValueError` otherwise) and creates the layer with `units`
undefined, no network id, not compiled, and no cached filter. -/
def init (rate : ℚ) : Except Err Dropout :=
  if ¬ (0 < rate ∧ rate < 1) then .error .valueError
  else .ok ⟨rate, none, none, false, none⟩

/-- `Dropout.compile` (dropout.py lines 35-53).  The integer arguments
are Python ints, so they are embedded as `ℤ`.  The two range checks
precede every mutation, so on failure the returned state is the input
state; the pair with an optional error records the state at the point
the exception (if any) is raised. -/
def compile (d : Dropout) (layer_idx input_units : ℤ) :
    Dropout × Option Err :=
  if layer_idx < 1 then (d, some .valueError)
  else if input_units < 1 then (d, some .valueError)
  else
    ({ d with
        units := some input_units.toNat
        network_id := some ("Dropout" ++ toString layer_idx)
        is_compiled := true }, none)

/-- `Dropout.forward` (dropout.py lines 55-91).  `draws` is the stream
of uniform values that `self._generator.random(size=layer_inputs.shape)`
produces, one per element of the input, indexed in row-major order.
The checks transcribe the source: uncompiled layers raise
`AttributeError`; `layer_inputs.shape[-1]` on a 0-d array raises
`IndexError`; the Python comparison `layer_inputs.shape[-1] != self.units`
compares the trailing dimension against the (possibly `None`) `units`
attribute and raises `ValueError` when they differ.  In training the
filter keeps an element exactly when its draw is strictly greater than
`RATE`; kept elements are rescaled by `1 / (1 - RATE)`; the filter is
cached.  Out of training the inputs pass through and the cache is not
touched. -/
def forward (d : Dropout) (layer_inputs : NDArray) (in_training : Bool)
    (draws : ℕ → ℚ) : Except Err (NDArray × Dropout) :=
  if d.is_compiled = false then .error .attributeError
  else
    match layer_inputs.shape.getLast? with
    | none => .error .indexError
    | some last =>
      if some last ≠ d.units then .error .valueError
      else if in_training then
        let filter_values := (List.range layer_inputs.data.length).map draws
        let dropout_filter := filter_values.map (fun v => decide (d.RATE < v))
        let filtered_inputs :=
          List.zipWith (fun b x => if b then x else 0)
            dropout_filter layer_inputs.data
        let layer_outputs := filtered_inputs.map (fun x => x / (1 - d.RATE))
        let cached : BoolArray := ⟨layer_inputs.shape, dropout_filter⟩
        .ok (⟨layer_inputs.shape, layer_outputs⟩,
          { d with dropout_filter := some cached })
      else
        .ok (layer_inputs, d)

/-- `Dropout.backward` (dropout.py lines 93-116).  The readiness check
mirrors `forward`; the shape check reads `output_grads.shape[1]` (the
second dimension, an `IndexError` on arrays of fewer than two
dimensions) and compares it against `units` with Python `!=`.  The
gradients are rescaled by `1 / (1 - RATE)` and then masked elementwise
by the cached filter.  `np.where` with a cached filter of the same shape
is the elementwise selection; with `None` as the condition (no training
forward has happened) the falsy 0-d condition broadcasts and every
element selects the scalar `0`; a filter of a different shape is
reported as an error here (numpy would broadcast compatible shapes and
raise `ValueError` on incompatible ones — no statement in this
development reaches that branch). -/
def backward (d : Dropout) (output_grads : NDArray) : Except Err NDArray :=
  if d.is_compiled = false then .error .attributeError
  else
    match output_grads.shape[1]? with
    | none => .error .indexError
    | some s1 =>
      if some s1 ≠ d.units then .error .valueError
      else
        let rescaled_grads := output_grads.data.map (fun g => g / (1 - d.RATE))
        match d.dropout_filter with
        | none => .ok ⟨output_grads.shape, output_grads.data.map (fun _ => 0)⟩
        | some filt =>
          if filt.shape = output_grads.shape then
            .ok ⟨output_grads.shape,
              List.zipWith (fun b g => if b then g else 0)
                filt.data rescaled_grads⟩
          else .error .valueError

end Dropout

/-- Modelled from the spec: the loss contract (spec section 6), which the
model consumes but does not implement (the loss classes are outside the
provided sources).  `calculate` maps predictions and labels to a scalar
loss; `gradate` maps them to a gradient array; both are stateless pure
functions of their two arguments. -/
structure Loss where
  calculate : NDArray → NDArray → ℚ
  gradate : NDArray → NDArray → NDArray

/-- Modelled from the spec: a repository layer whose implementation is
outside the provided sources (`InputLayer`, `Dense`, ...; spec sections
4.1 and 6).  `UNITS` is the output width attribute `model.py` reads when
wiring; `IS_INPUT` marks the input-designating variant; `IS_TRAINABLE`
selects the `update` call in the training loop.  `state` holds the
layer's parameters and forward/backward caches opaquely; the operation
fields consume the calls `model.py` actually makes: `forward` with the
single array argument `Model.predict` passes (per the spec only
stochastic layers distinguish training from inference, so these layers
are mode-free), `backward` with the output-gradients, and `update` with
the learning rate. -/
structure ForeignLayer where
  UNITS : ℕ
  IS_INPUT : Bool
  IS_TRAINABLE : Bool
  state : List ℚ
  forwardFn : List ℚ → NDArray → Except Err (NDArray × List ℚ)
  backwardFn : List ℚ → NDArray → Except Err (NDArray × List ℚ)
  updateFn : List ℚ → ℚ → List ℚ

/-- A layer of the model: either the in-source `Dropout` or a layer of
the repository that is outside the provided sources. -/
inductive Layer where
  | dropout : Dropout → Layer
  | foreign : ForeignLayer → Layer

namespace Layer

/-- The `IS_TRAINABLE` attribute read by `Model.fit` (model.py line
123).  `Dropout.__init__` passes `False` to the base-class initializer
(dropout.py line 22), so dropout layers are never trainable. -/
def IS_TRAINABLE : Layer → Bool
  | .dropout _ => false
  | .foreign e => e.IS_TRAINABLE

/-- Whether the layer is the input-designating variant
(`isinstance(layer, InputLayer)`, model.py lines 33-36). -/
def isInputLayer : Layer → Bool
  | .dropout _ => false
  | .foreign e => e.IS_INPUT

/-- Modelled from the spec: `layers.verify_layer` (the `layers` package
module is outside the provided sources) checks that a constructor
argument satisfies the layer capability set.  Every value of the `Layer`
type is a layer, so the check succeeds. -/
def verify_layer : Layer → Bool := fun _ => true

/-- The attribute access `layer.UNITS` performed by the wiring loop
(model.py line 44).  Python attribute lookup is case-sensitive:
`Dropout` defines `units` (lowercase, dropout.py line 29), not `UNITS`,
so the access raises `AttributeError` on a dropout layer.  The layers
outside the provided sources expose `UNITS` (model.py relies on it). -/
def UNITSattr : Layer → Except Err ℕ
  | .dropout _ => .error .attributeError
  | .foreign e => .ok e.UNITS

/-- The wiring call `layer.compile(model_layers[layer_idx - 1].UNITS)`
(model.py line 44), which passes exactly one argument.
`Dropout.compile` declares two required parameters
`(layer_idx, input_units)` (dropout.py line 35), so on a dropout layer
this call raises `TypeError` before the method body runs.  For layers
outside the provided sources the call is modelled from the spec as the
bookkeeping step of the one-argument convention their caller uses
(their `UNITS` is fixed at construction). -/
def compileCall : Layer → ℕ → Except Err Layer
  | .dropout _, _ => .error .typeError
  | .foreign e, _ => .ok (.foreign e)

/-- The call `layer.forward(inputs_propagated)` made by `Model.predict`
(model.py line 60), which passes exactly one argument.
`Dropout.forward` declares `in_training` as a required parameter with no
default (dropout.py lines 55-58), so on a dropout layer this call raises
`TypeError` before the method body runs. -/
def forwardCall : Layer → NDArray → Except Err (Layer × NDArray)
  | .dropout _, _ => .error .typeError
  | .foreign e, x =>
    match e.forwardFn e.state x with
    | .error err => .error err
    | .ok (y, st) => .ok (.foreign { e with state := st }, y)

/-- The call `layer.backward(propagated_gradients)` made by `Model.fit`
(model.py line 119). -/
def backwardCall : Layer → NDArray → Except Err (Layer × NDArray)
  | .dropout d, g =>
    match Dropout.backward d g with
    | .error err => .error err
    | .ok ig => .ok (.dropout d, ig)
  | .foreign e, g =>
    match e.backwardFn e.state g with
    | .error err => .error err
    | .ok (ig, st) => .ok (.foreign { e with state := st }, ig)

/-- The call `layer.update(learning_rate)` made by `Model.fit` (model.py
line 124), reached only for trainable layers.  `Dropout` is never
trainable, so only layers outside the provided sources are updated. -/
def updateCall (lr : ℚ) : Layer → Layer
  | .dropout d => .dropout d
  | .foreign e => .foreign { e with state := e.updateFn e.state lr }

end Layer

/-- The model: a loss object and an ordered layer sequence (model.py
lines 15-47). -/
structure Model where
  LOSS : Loss
  LAYERS : List Layer

/-- The layer-type validation loop of `Model.__init__` (model.py lines
30-37), carrying the running `enumerate` index: non-layers raise
`TypeError`; an input layer anywhere but first, or a non-input layer
first, raises `ValueError`. -/
def checkLayersFrom : ℕ → List Layer → Except Err Unit
  | _, [] => .ok ()
  | layer_idx, layer :: rest =>
    if ¬ Layer.verify_layer layer then .error .typeError
    else if layer_idx ≠ 0 ∧ layer.isInputLayer then .error .valueError
    else if layer_idx = 0 ∧ ¬ layer.isInputLayer then .error .valueError
    else checkLayersFrom (layer_idx + 1) rest

/-- The wiring loop of `Model.__init__` (model.py lines 39-44) from the
second layer on: each layer is compiled with (only) the preceding
layer's `UNITS` attribute.  Python mutates the layer objects in place;
here the updated predecessor is threaded to the next step. -/
def connectFrom : Layer → List Layer → Except Err (List Layer)
  | _, [] => .ok []
  | prev, layer :: rest => do
    let u ← prev.UNITSattr
    let layer' ← layer.compileCall u
    let rest' ← connectFrom layer' rest
    .ok (layer' :: rest')

/-- The wiring loop of `Model.__init__` (model.py lines 39-44): layer 0
is skipped (`continue`), every later layer is compiled with its
predecessor's `UNITS`. -/
def connectLayers : List Layer → Except Err (List Layer)
  | [] => .ok []
  | first :: rest => do
    let rest' ← connectFrom first rest
    .ok (first :: rest')

/-- `Model.__init__` (model.py lines 16-47): validate the layer types
and positions, then wire the layers together. -/
def Model.init (loss : Loss) (model_layers : List Layer) :
    Except Err Model := do
  checkLayersFrom 0 model_layers
  let wired ← connectLayers model_layers
  .ok ⟨loss, wired⟩

/-- The forward propagation of `Model.predict` (model.py lines 57-62):
fold `layer.forward(inputs_propagated)` over the layers in order,
threading the (possibly mutated) layers through. -/
def forwardPass : List Layer → NDArray → Except Err (List Layer × NDArray)
  | [], x => .ok ([], x)
  | layer :: rest, x => do
    let (layer', y) ← layer.forwardCall x
    let (rest', z) ← forwardPass rest y
    .ok (layer' :: rest', z)

/-- `Model.predict` (model.py lines 49-62): forward propagate the
examples through every layer in order and return the final outputs
(together with the layers, whose internal caches Python mutates in
place). -/
def Model.predict (m : Model) (examples : NDArray) :
    Except Err (List Layer × NDArray) :=
  forwardPass m.LAYERS examples

/-- The backward loop of `Model.fit` (model.py lines 118-119):
`for layer in reversed(self._LAYERS)` propagates the gradients through
the layers in reverse order; processing the tail before the head
realizes the reversal while keeping the stored order. -/
def backwardPass : List Layer → NDArray → Except Err (List Layer × NDArray)
  | [], g => .ok ([], g)
  | layer :: rest, g => do
    let (rest', g₁) ← backwardPass rest g
    let (layer', g₂) ← layer.backwardCall g₁
    .ok (layer' :: rest', g₂)

/-- The update loop of `Model.fit` (model.py lines 121-124): every layer
with `IS_TRAINABLE` true receives `update(learning_rate)`. -/
def updateAll (lr : ℚ) (ls : List Layer) : List Layer :=
  ls.map (fun layer =>
    if layer.IS_TRAINABLE then layer.updateCall lr else layer)

/-- The row width of an array whose leading dimension indexes examples:
the number of scalars in one example. -/
def rowWidth (shape : List ℕ) : ℕ := shape.tail.prod

/-- numpy fancy indexing `a[indices]` on the leading dimension (model.py
lines 102-104): pick the listed rows in order; an index at or past the
leading dimension raises `IndexError`. -/
def gatherRows (a : NDArray) (indices : List ℕ) : Except Err NDArray :=
  match a.shape with
  | [] => .error .indexError
  | n :: rest =>
    if indices.all (fun i => i < n) then
      .ok ⟨indices.length :: rest,
        (indices.map (fun i =>
          ((a.data.drop (i * rowWidth (n :: rest))).take
            (rowWidth (n :: rest))))).flatten⟩
    else .error .indexError

/-- numpy basic slicing `a[lower: upper]` on the leading dimension
(model.py lines 109-111): Python slices clamp to the array, never
raising. -/
def sliceRows (a : NDArray) (lower upper : ℕ) : NDArray :=
  match a.shape with
  | [] => a
  | n :: rest =>
    ⟨(min upper n - lower) :: rest,
      (a.data.drop (lower * rowWidth (n :: rest))).take
        ((min upper n - lower) * rowWidth (n :: rest))⟩

/-- The batch-size adjustment of `Model.fit` (model.py lines 90-93):
when `n_examples / 2 < batch_size` (Python true division), the batch
size is replaced by the full dataset size. -/
def effBatchSize (n_examples batch_size : ℕ) : ℕ :=
  if (n_examples : ℚ) / 2 < (batch_size : ℚ) then n_examples
  else batch_size

/-- The per-epoch batch count `n_examples // batch_size` of `Model.fit`
(model.py line 106), after the batch-size adjustment. -/
def numBatches (n_examples batch_size : ℕ) : ℕ :=
  n_examples / effBatchSize n_examples batch_size

/-- One gradient-descent step of `Model.fit` (model.py lines 113-124):
forward propagate the batch via `self.predict`, obtain the output
gradients from the loss contract, propagate them backward through every
layer in reverse order, then update every trainable layer. -/
def runBatch (L : Loss) (ls : List Layer) (batch_examples batch_labels :
    NDArray) (lr : ℚ) : Except Err (List Layer) := do
  let (ls₁, batch_outputs) ← forwardPass ls batch_examples
  let output_gradients := L.gradate batch_outputs batch_labels
  let (ls₂, _) ← backwardPass ls₁ output_gradients
  .ok (updateAll lr ls₂)

/-- The batch loop of `Model.fit` (model.py lines 106-124): process the
batches `b, b+1, ...` (`k` of them) of the permuted data, each of
`bs` examples, in order. -/
def batchLoop (L : Loss) (pex plab : NDArray) (bs : ℕ) (lr : ℚ) :
    List Layer → ℕ → ℕ → Except Err (List Layer)
  | ls, _, 0 => .ok ls
  | ls, b, k + 1 => do
    let batch_examples := sliceRows pex (bs * b) (bs * (b + 1))
    let batch_labels := sliceRows plab (bs * b) (bs * (b + 1))
    let ls' ← runBatch L ls batch_examples batch_labels lr
    batchLoop L pex plab bs lr ls' (b + 1) k

/-- One epoch of `Model.fit` (model.py lines 100-124): permute examples
and labels with the same index list, then run every batch in order.
`idx` is the value of `generator.permutation(n_examples)` for this
epoch.  With a zero batch size (an empty dataset after the adjustment)
the batch count `n_examples // batch_size` raises
`ZeroDivisionError`. -/
def runEpoch (L : Loss) (ls : List Layer) (examples labels : NDArray)
    (n bs : ℕ) (lr : ℚ) (idx : List ℕ) : Except Err (List Layer) := do
  let permuted_examples ← gatherRows examples idx
  let permuted_labels ← gatherRows labels idx
  if bs = 0 then .error .zeroDivisionError
  else batchLoop L permuted_examples permuted_labels bs lr ls 0 (n / bs)

/-- The epoch loop of `Model.fit` (model.py lines 99-135), recording one
metric per epoch: after an epoch's batches, the loss over the entire
training set (`self.predict(examples)` followed by
`self._LOSS.calculate`).  `e` is the absolute epoch number (feeding the
permutation stream), `k` the number of epochs still to run. -/
def fitLoop (L : Loss) (examples labels : NDArray) (n bs : ℕ) (lr : ℚ)
    (perms : ℕ → List ℕ) :
    List Layer → ℕ → ℕ → Except Err (List Layer × List ℚ)
  | ls, _, 0 => .ok (ls, [])
  | ls, e, k + 1 => do
    let ls' ← runEpoch L ls examples labels n bs lr (perms e)
    let (ls₂, current_outputs) ← forwardPass ls' examples
    let current_loss := L.calculate current_outputs labels
    let (ls₃, hist) ← fitLoop L examples labels n bs lr perms ls₂ (e + 1) k
    .ok (ls₃, current_loss :: hist)

/-- `Model.fit` (model.py lines 64-138): validate `batch_size ≥ 1` and
`epochs ≥ 1`, read `n_examples = examples.shape[0]` (an `IndexError` on
a 0-d array), adjust the batch size, and run the epoch loop, returning
the per-epoch training history.  `perms` is the stream of shuffling
index lists the generator produces, one per epoch. -/
def Model.fit (m : Model) (examples labels : NDArray)
    (batch_size epochs : ℕ) (lr : ℚ) (perms : ℕ → List ℕ) :
    Except Err (List ℚ) :=
  if batch_size < 1 then .error .valueError
  else if epochs < 1 then .error .valueError
  else
    match examples.shape with
    | [] => .error .indexError
    | n :: _ =>
      match fitLoop m.LOSS examples labels n
          (effBatchSize n batch_size) lr perms m.LAYERS 0 epochs with
      | .error err => .error err
      | .ok (_, hist) => .ok hist

/-- The layer states entering epoch `e + k` of a fit run, given the
states `ls` entering epoch `e`: run the batches of each epoch and the
full-training-set metric pass (whose forward call also mutates layer
caches), epoch by epoch.  This is the reference description of the state
evolution that the recorded history is checked against. -/
def epochChain (L : Loss) (examples labels : NDArray) (n bs : ℕ) (lr : ℚ)
    (perms : ℕ → List ℕ) : List Layer → ℕ → ℕ → Except Err (List Layer)
  | ls, _, 0 => .ok ls
  | ls, e, k + 1 => do
    let ls' ← runEpoch L ls examples labels n bs lr (perms e)
    let (ls₂, _) ← forwardPass ls' examples
    epochChain L examples labels n bs lr perms ls₂ (e + 1) k

/-- A `Dropout(1/2)` layer compiled with 2 units, before any forward
call (the C5 scenario). -/
def dropC5 : Dropout := ⟨1/2, some 2, some "Dropout1", true, none⟩

/-- The uniform draws of the C5 scenario: `9/10` for element 0, `1/10`
for every later element. -/
def drawsC5 : ℕ → ℚ := fun i => if i = 0 then 9/10 else 1/10

/-- The C5 layer after its training-mode forward call on the row
`[1, 1]`: the filter `[true, false]` is cached. -/
def dropC5' : Dropout :=
  ⟨1/2, some 2, some "Dropout1", true, some ⟨[1, 2], [true, false]⟩⟩

/-- A `Dropout(0.3)` layer compiled with 4 units (the C7 scenario). -/
def dropC7 : Dropout := ⟨3/10, some 4, some "Dropout2", true, none⟩

/-- A 3-dimensional all-ones gradient array of shape `(2, 3, 4)`: its
trailing dimension is 4, its dimension at index 1 is 3. -/
def gradsC7 : NDArray := ⟨[2, 3, 4], List.replicate 24 1⟩

/-- A compiled `Dropout(1/2)` with 3 units holding a cached all-true
filter of shape `(2, 3)` (the C7 witness scenario). -/
def dropC7w : Dropout :=
  ⟨1/2, some 3, some "Dropout1", true, some ⟨[2, 3], List.replicate 6 true⟩⟩

/-- A loss object whose gradient is the raw predictions and whose
scalar loss is 0 (a concrete instance of the loss contract, used where
the run fails before the loss is ever consulted). -/
def plainLoss : Loss := ⟨fun _ _ => 0, fun o _ => o⟩

/-- A concrete input-designating layer of width 2 behaving as the
identity (a stand-in for `InputLayer((2,))`). -/
def inLayer2 : ForeignLayer :=
  ⟨2, true, false, [], fun st x => .ok (x, st), fun st g => .ok (g, st),
    fun st _ => st⟩

/-- A concrete input-designating layer of width 3 behaving as the
identity (a stand-in for `InputLayer((3,))`). -/
def inLayer3 : ForeignLayer :=
  ⟨3, true, false, [], fun st x => .ok (x, st), fun st g => .ok (g, st),
    fun st _ => st⟩

/-- A concrete input-designating layer of width 1 behaving as the
identity. -/
def inLayer1 : ForeignLayer :=
  ⟨1, true, false, [], fun st x => .ok (x, st), fun st g => .ok (g, st),
    fun st _ => st⟩

/-- A `Dropout(0.3)` compiled with 2 units at position 2, ready for a
training pass (the C1 scenario). -/
def dropFit : Dropout := ⟨3/10, some 2, some "Dropout2", true, none⟩

/-- The C1 pipeline: an input layer of width 2 followed by a compiled
`Dropout(0.3)`. -/
def modelC1 : Model := ⟨plainLoss, [.foreign inLayer2, .dropout dropFit]⟩

/-- A `Dropout(0.3)` compiled with 3 units at position 2 (the C2
scenario). -/
def dropPred : Dropout := ⟨3/10, some 3, some "Dropout2", true, none⟩

/-- The C2 pipeline: an input layer of width 3 followed by a compiled
`Dropout(0.3)`. -/
def modelC2 : Model := ⟨plainLoss, [.foreign inLayer3, .dropout dropPred]⟩

/-- A freshly constructed, uncompiled `Dropout(0.3)` (as `main.py`
passes to the `Model` constructor). -/
def dropNew : Dropout := ⟨3/10, none, none, false, none⟩

/-- A single-layer model over the width-1 identity input layer, with a
loss whose scalar is the first prediction entry (the C9 witness
pipeline, which `fit` runs to completion). -/
def modelC9 : Model :=
  ⟨⟨fun o _ => o.data.headD 0, fun o _ => o⟩, [.foreign inLayer1]⟩

/-- The contract C9 checks on a training history: the length is exactly
the epoch count, and the entry for epoch `e` is the loss contract's
`calculate` applied to a full forward pass over the entire training set
in the layer state reached after all of epoch `e`'s batches (the state
`epochChain` ascribes to the start of epoch `e`, advanced by that
epoch's `runEpoch`). -/
def recordedHistorySpec (L : Loss) (layers : List Layer)
    (examples labels : NDArray) (batch_size epochs : ℕ) (lr : ℚ)
    (perms : ℕ → List ℕ) (hist : List ℚ) : Prop :=
  hist.length = epochs ∧
  ∀ e, e < epochs → ∃ n ls_e lsb lso outs,
    examples.shape.head? = some n ∧
    epochChain L examples labels n (effBatchSize n batch_size) lr perms
      layers 0 e = .ok ls_e ∧
    runEpoch L ls_e examples labels n (effBatchSize n batch_size) lr
      (perms e) = .ok lsb ∧
    forwardPass lsb examples = .ok (lso, outs) ∧
    hist[e]? = some (L.calculate outs labels)


/-- C10: `Dropout.compile` is atomic on error — whenever
`layer_idx < 1` or `input_units < 1`, the call raises `ValueError` and
returns the layer state exactly as it was, so `units`, the network id
and the compiled flag all keep their prior values. -/
theorem C10_compile_atomic_on_error (d : Dropout)
    (layer_idx input_units : ℤ)
    (h : layer_idx < 1 ∨ input_units < 1) :
    Dropout.compile d layer_idx input_units = (d, some .valueError) := by
  rcases h with h | h
  · simp [Dropout.compile, h]
  · unfold Dropout.compile
    by_cases h1 : layer_idx < 1 <;> simp [h1, h]

/-- Witness for C10: compiling a freshly constructed `Dropout(0.3)` at
layer index `0` with `5` input units fails with `ValueError` and leaves
the layer unchanged. -/
theorem C10_compile_atomic_on_error_witness :
    ((0 : ℤ) < 1 ∨ (5 : ℤ) < 1) ∧
    Dropout.compile ⟨3/10, none, none, false, none⟩ 0 5 =
      (⟨3/10, none, none, false, none⟩, some .valueError) :=
  ⟨Or.inl (by decide),
    C10_compile_atomic_on_error ⟨3/10, none, none, false, none⟩ 0 5
      (Or.inl (by decide))⟩

/-- C6: for every compiled `Dropout` and every input whose trailing
dimension equals `units`, `forward` with `in_training = false` returns
the input unchanged and the layer state — in particular the cached
dropout filter — untouched. -/
theorem C6_forward_inference_identity (d : Dropout) (x : NDArray)
    (draws : ℕ → ℚ) (u : ℕ) (hc : d.is_compiled = true)
    (hs : x.shape.getLast? = some u) (hu : d.units = some u) :
    Dropout.forward d x false draws = .ok (x, d) := by
  simp [Dropout.forward, hc, hs, hu]

/-- Witness for C6: a compiled `Dropout(0.3)` with 2 units maps the
2-element row `[3, 4]` to itself in inference mode. -/
theorem C6_forward_inference_identity_witness :
    (Dropout.mk (3/10) (some 2) (some "Dropout1") true none).is_compiled
        = true ∧
    (NDArray.mk [1, 2] [3, 4]).shape.getLast? = some 2 ∧
    (Dropout.mk (3/10) (some 2) (some "Dropout1") true none).units
        = some 2 ∧
    Dropout.forward ⟨3/10, some 2, some "Dropout1", true, none⟩
        ⟨[1, 2], [3, 4]⟩ false (fun _ => 0) =
      .ok (⟨[1, 2], [3, 4]⟩, ⟨3/10, some 2, some "Dropout1", true, none⟩) :=
  ⟨rfl, rfl, rfl,
    C6_forward_inference_identity ⟨3/10, some 2, some "Dropout1", true, none⟩
      ⟨[1, 2], [3, 4]⟩ (fun _ => 0) 2 rfl rfl rfl⟩

/-- C4: for every compiled `Dropout` with rate in `(0, 1)` and every
input whose trailing dimension equals `units`, a training-mode `forward`
uses one draw per element of the input; the output keeps element `i`
scaled by `1 / (1 - rate)` exactly when draw `i` exceeds the rate and
zeroes it otherwise; and the boolean filter recording exactly those
comparisons, with the input's shape, is cached for the paired
`backward` call. -/
theorem C4_forward_training (d : Dropout) (x : NDArray) (draws : ℕ → ℚ)
    (u : ℕ) (hc : d.is_compiled = true) (hs : x.shape.getLast? = some u)
    (hu : d.units = some u) (_hr : 0 < d.RATE ∧ d.RATE < 1) :
    ∃ out d' filt, Dropout.forward d x true draws = .ok (out, d') ∧
      out.shape = x.shape ∧ out.data.length = x.data.length ∧
      (∀ i v, x.data[i]? = some v →
        out.data[i]? =
          some (if d.RATE < draws i then v / (1 - d.RATE) else 0)) ∧
      d'.dropout_filter = some filt ∧ filt.shape = x.shape ∧
      filt.data.length = x.data.length ∧
      (∀ i, i < x.data.length →
        filt.data[i]? = some (decide (d.RATE < draws i))) ∧
      d'.RATE = d.RATE ∧ d'.units = d.units ∧
      d'.is_compiled = d.is_compiled := by
  have hmain : Dropout.forward d x true draws =
      .ok (⟨x.shape, (List.zipWith (fun b y => if b then y else 0)
          (((List.range x.data.length).map draws).map
            (fun v => decide (d.RATE < v))) x.data).map
          (fun y => y / (1 - d.RATE))⟩,
        { d with dropout_filter := some ⟨x.shape,
            ((List.range x.data.length).map draws).map
              (fun v => decide (d.RATE < v))⟩ }) := by
    simp [Dropout.forward, hc, hs, hu]
  refine ⟨_, _, _, hmain, rfl, ?_, ?_, rfl, rfl, ?_, ?_, rfl, rfl, rfl⟩
  · simp
  · intro i v hv
    have hi : i < x.data.length := by
      by_contra hge
      rw [List.getElem?_eq_none (by omega)] at hv
      exact Option.noConfusion hv
    have hvv : x.data[i] = v := by
      simpa [List.getElem?_eq_getElem hi] using hv
    simp [List.getElem?_map, List.getElem?_zipWith, List.getElem?_range,
      hi, hv, hvv]
    by_cases hd : d.RATE < draws i <;> simp [hd]
  · simp
  · intro i hi
    simp [List.getElem?_map, List.getElem?_range, hi]

/-- Witness for C4: a compiled `Dropout(1/2)` with 2 units, on the row
`[1, 1]` with draws `9/10` and `1/10`, keeps (and doubles) the first
element and zeroes the second, caching the filter `[true, false]`. -/
theorem C4_forward_training_witness :
    (Dropout.mk (1/2) (some 2) (some "Dropout1") true none).is_compiled
        = true ∧
    (NDArray.mk [1, 2] [1, 1]).shape.getLast? = some 2 ∧
    (0 < (Dropout.mk (1/2) (some 2) (some "Dropout1") true none).RATE ∧
      (Dropout.mk (1/2) (some 2) (some "Dropout1") true none).RATE < 1) ∧
    (∃ out d' filt,
      Dropout.forward ⟨1/2, some 2, some "Dropout1", true, none⟩
          ⟨[1, 2], [1, 1]⟩ true
          (fun i => if i = 0 then 9/10 else 1/10) = .ok (out, d') ∧
      out.shape = [1, 2] ∧ out.data.length = 2 ∧
      (∀ i v, (NDArray.mk [1, 2] [1, 1]).data[i]? = some v →
        out.data[i]? =
          some (if (1 : ℚ)/2 < (if i = 0 then 9/10 else 1/10) then
            v / (1 - 1/2) else 0)) ∧
      d'.dropout_filter = some filt ∧ filt.shape = [1, 2] ∧
      filt.data.length = 2 ∧
      (∀ i, i < 2 →
        filt.data[i]? =
          some (decide ((1 : ℚ)/2 < (if i = 0 then 9/10 else 1/10)))) ∧
      d'.RATE = 1/2 ∧ d'.units = some 2 ∧ d'.is_compiled = true) :=
  ⟨rfl, rfl, by constructor <;> norm_num,
    C4_forward_training ⟨1/2, some 2, some "Dropout1", true, none⟩
      ⟨[1, 2], [1, 1]⟩ (fun i => if i = 0 then 9/10 else 1/10) 2
      rfl rfl rfl (by constructor <;> norm_num)⟩

/-- C5 counterexample: after a training-mode forward call of
`Dropout(1/2)` on the all-ones row `[1, 1]` with draws `9/10, 1/10`
(element 0 survives, element 1 is zeroed), `backward` on the gradients
`[0, 4]` returns `[0, 0]`: element 0 has zero input-gradient although
forward did not zero it (its output was `2`), so the zero-pattern of the
input-gradients does not exactly match the elements zeroed by the
forward call. -/
theorem C5_counterexample :
    Dropout.forward dropC5 ⟨[1, 2], [1, 1]⟩ true drawsC5 =
      .ok (⟨[1, 2], [2, 0]⟩, dropC5') ∧
    Dropout.backward dropC5' ⟨[1, 2], [0, 4]⟩ = .ok ⟨[1, 2], [0, 0]⟩ ∧
    ¬ (∀ (i : ℕ) (r o : ℚ),
        (NDArray.mk [1, 2] [0, 0]).data[i]? = some r →
        (NDArray.mk [1, 2] [2, 0]).data[i]? = some o →
        (r = 0 ↔ o = 0)) := by
  refine ⟨?_, ?_, ?_⟩
  · norm_num [Dropout.forward, dropC5, dropC5', drawsC5, List.range_succ]
  · norm_num [Dropout.backward, dropC5']
  · intro hall
    have h0 := hall 0 0 2 rfl rfl
    exact absurd (h0.mp rfl) (by norm_num)

/-- C5 (amended): for every compiled Dropout holding a filter cached by
a training-mode forward call, with gradients matching the filter's
shape, `backward` equals the output-gradients divided by `(1 - rate)`
with every filter-false element set to zero; every element zeroed in
forward receives zero gradient, and a surviving element receives zero
gradient exactly when its incoming output-gradient is zero (so the
zero-patterns coincide exactly whenever the incoming gradients are
nonzero at the surviving positions). -/
theorem C5_backward_mask (d : Dropout) (g : NDArray) (filt : BoolArray)
    (u : ℕ) (hc : d.is_compiled = true) (hu : d.units = some u)
    (hs1 : g.shape[1]? = some u) (hf : d.dropout_filter = some filt)
    (hfs : filt.shape = g.shape) (hr : 0 < d.RATE ∧ d.RATE < 1) :
    ∃ res, Dropout.backward d g = .ok res ∧ res.shape = g.shape ∧
      (∀ (i : ℕ) (b : Bool) (v : ℚ),
        filt.data[i]? = some b → g.data[i]? = some v →
        res.data[i]? = some (if b then v / (1 - d.RATE) else 0)) ∧
      (∀ (i : ℕ) (b : Bool) (v : ℚ),
        filt.data[i]? = some b → g.data[i]? = some v →
        (res.data[i]? = some 0 ↔ (b = false ∨ v = 0))) := by
  have hone : (1 : ℚ) - d.RATE ≠ 0 := by
    have h2 := hr.2
    intro hzero
    have : d.RATE = 1 := by linarith
    linarith
  have hmain : Dropout.backward d g =
      .ok ⟨g.shape, List.zipWith (fun b gg => if b then gg else 0)
        filt.data (g.data.map (fun gg => gg / (1 - d.RATE)))⟩ := by
    simp [Dropout.backward, hc, hu, hs1, hf, hfs]
  have helem : ∀ (i : ℕ) (b : Bool) (v : ℚ),
      filt.data[i]? = some b → g.data[i]? = some v →
      (List.zipWith (fun b gg => if b then gg else 0)
        filt.data (g.data.map (fun gg => gg / (1 - d.RATE))))[i]? =
        some (if b then v / (1 - d.RATE) else 0) := by
    intro i b v hb hv
    simp [List.getElem?_zipWith, List.getElem?_map, hb, hv]
  refine ⟨_, hmain, rfl, helem, ?_⟩
  intro i b v hb hv
  rw [helem i b v hb hv]
  cases b with
  | false => simp
  | true =>
    simp only [if_true, Option.some_inj]
    constructor
    · intro hzz
      exact Or.inr ((div_eq_zero_iff.mp hzz).resolve_right hone)
    · intro hzz
      rcases hzz with hzz | hzz
      · exact absurd hzz (by simp)
      · rw [hzz, zero_div]

/-- Witness for C5 (amended): the C5 layer state after its forward call,
on gradients `[0, 4]` of shape `(1, 2)`. -/
theorem C5_backward_mask_witness :
    dropC5'.is_compiled = true ∧ dropC5'.units = some 2 ∧
    (NDArray.mk [1, 2] [0, 4]).shape[1]? = some 2 ∧
    dropC5'.dropout_filter = some ⟨[1, 2], [true, false]⟩ ∧
    (BoolArray.mk [1, 2] [true, false]).shape =
      (NDArray.mk [1, 2] [0, 4]).shape ∧
    (0 < dropC5'.RATE ∧ dropC5'.RATE < 1) ∧
    (∃ res, Dropout.backward dropC5' ⟨[1, 2], [0, 4]⟩ = .ok res ∧
      res.shape = (NDArray.mk [1, 2] [(0 : ℚ), 4]).shape ∧
      (∀ (i : ℕ) (b : Bool) (v : ℚ),
        (BoolArray.mk [1, 2] [true, false]).data[i]? = some b →
        (NDArray.mk [1, 2] [0, 4]).data[i]? = some v →
        res.data[i]? = some (if b then v / (1 - dropC5'.RATE) else 0)) ∧
      (∀ (i : ℕ) (b : Bool) (v : ℚ),
        (BoolArray.mk [1, 2] [true, false]).data[i]? = some b →
        (NDArray.mk [1, 2] [0, 4]).data[i]? = some v →
        (res.data[i]? = some 0 ↔ (b = false ∨ v = 0)))) :=
  ⟨rfl, rfl, rfl, rfl, rfl, by refine ⟨?_, ?_⟩ <;> norm_num [dropC5'],
    C5_backward_mask dropC5' ⟨[1, 2], [0, 4]⟩ ⟨[1, 2], [true, false]⟩ 2
      rfl rfl rfl rfl rfl
      (by refine ⟨?_, ?_⟩ <;> norm_num [dropC5'])⟩

/-- C7 counterexample: a compiled Dropout with 4 units, on a
3-dimensional gradient array of shape `(2, 3, 4)` whose trailing
dimension is exactly `units = 4`, still fails with the shape-mismatch
`ValueError`: the code compares dimension index 1 (here 3) against
`units`, not the trailing dimension, refuting that shape-mismatch
failures happen exactly when the trailing dimension disagrees. -/
theorem C7_counterexample :
    dropC7.is_compiled = true ∧ dropC7.units = some 4 ∧
    gradsC7.shape.getLast? = some 4 ∧
    Dropout.backward dropC7 gradsC7 = .error .valueError := by
  refine ⟨rfl, rfl, by decide, ?_⟩
  norm_num [Dropout.backward, dropC7, gradsC7]

/-- C7 (amended): `Dropout.backward` fails with the not-ready
`AttributeError` when called before compile; once compiled and holding a
cached filter shaped like the gradients, it fails with `IndexError` on
gradients of fewer than two dimensions, fails with the shape-mismatch
`ValueError` exactly when the dimension at index 1 (not the trailing
dimension) disagrees with `units`, and succeeds otherwise. -/
theorem C7_backward_preconditions (d : Dropout) (g : NDArray)
    (filt : BoolArray) (s1 : ℕ) (hf : d.dropout_filter = some filt)
    (hfs : filt.shape = g.shape) :
    (d.is_compiled = false →
      Dropout.backward d g = .error .attributeError) ∧
    (d.is_compiled = true → g.shape[1]? = none →
      Dropout.backward d g = .error .indexError) ∧
    (d.is_compiled = true → g.shape[1]? = some s1 → some s1 ≠ d.units →
      Dropout.backward d g = .error .valueError) ∧
    (d.is_compiled = true → g.shape[1]? = some s1 → d.units = some s1 →
      ∃ res, Dropout.backward d g = .ok res) := by
  refine ⟨?_, ?_, ?_, ?_⟩
  · intro hc
    simp [Dropout.backward, hc]
  · intro hc hnone
    simp [Dropout.backward, hc, hnone]
  · intro hc hsome hne
    simp [Dropout.backward, hc, hsome, hne]
  · intro hc hsome hu
    refine ⟨⟨g.shape, List.zipWith (fun b gg => if b then gg else 0)
      filt.data (g.data.map (fun gg => gg / (1 - d.RATE)))⟩, ?_⟩
    simp [Dropout.backward, hc, hsome, hu, hf, hfs]

/-- Witness for C7 (amended): a compiled Dropout with 3 units and a
matching all-true cached filter, on gradients of shape `(2, 3)`. -/
theorem C7_backward_preconditions_witness :
    dropC7w.dropout_filter = some ⟨[2, 3], List.replicate 6 true⟩ ∧
    (BoolArray.mk [2, 3] (List.replicate 6 true)).shape =
      (NDArray.mk [2, 3] [1, 2, 3, 4, 5, 6]).shape ∧
    ((dropC7w.is_compiled = false →
      Dropout.backward dropC7w ⟨[2, 3], [1, 2, 3, 4, 5, 6]⟩ =
        .error .attributeError) ∧
    (dropC7w.is_compiled = true →
      (NDArray.mk [2, 3] [(1 : ℚ), 2, 3, 4, 5, 6]).shape[1]? = none →
      Dropout.backward dropC7w ⟨[2, 3], [1, 2, 3, 4, 5, 6]⟩ =
        .error .indexError) ∧
    (dropC7w.is_compiled = true →
      (NDArray.mk [2, 3] [(1 : ℚ), 2, 3, 4, 5, 6]).shape[1]? = some 3 →
      some 3 ≠ dropC7w.units →
      Dropout.backward dropC7w ⟨[2, 3], [1, 2, 3, 4, 5, 6]⟩ =
        .error .valueError) ∧
    (dropC7w.is_compiled = true →
      (NDArray.mk [2, 3] [(1 : ℚ), 2, 3, 4, 5, 6]).shape[1]? = some 3 →
      dropC7w.units = some 3 →
      ∃ res, Dropout.backward dropC7w ⟨[2, 3], [1, 2, 3, 4, 5, 6]⟩ =
        .ok res)) :=
  ⟨rfl, rfl,
    C7_backward_preconditions dropC7w ⟨[2, 3], [1, 2, 3, 4, 5, 6]⟩
      ⟨[2, 3], List.replicate 6 true⟩ 3 rfl rfl⟩

/-- C8: in `Model.fit`, for a positive requested batch size and a
nonempty dataset, a batch size exceeding half the dataset size (the
Python condition `n_examples / 2 < batch_size`, equivalent to
`n < 2 * batch_size`) is replaced by the full dataset size, yielding
exactly one batch per epoch; otherwise the batch size is kept, the
number of batches per epoch is `n_examples // batch_size`, and the
remainder examples — fewer than one batch's worth — are excluded from
the epoch. -/
theorem C8_batch_sizing (n bs : ℕ) (hbs : 1 ≤ bs) (hn : 1 ≤ n) :
    ((n : ℚ) / 2 < (bs : ℚ) ↔ n < 2 * bs) ∧
    ((n : ℚ) / 2 < (bs : ℚ) →
      effBatchSize n bs = n ∧ numBatches n bs = 1) ∧
    (¬ (n : ℚ) / 2 < (bs : ℚ) →
      effBatchSize n bs = bs ∧ numBatches n bs = n / bs ∧
        n - bs * (n / bs) < bs) := by
  have hiff : (n : ℚ) / 2 < (bs : ℚ) ↔ n < 2 * bs := by
    rw [div_lt_iff₀ (by norm_num : (0 : ℚ) < 2)]
    constructor
    · intro h
      have h2 : (n : ℚ) < ((2 * bs : ℕ) : ℚ) := by push_cast; linarith
      exact_mod_cast h2
    · intro h
      have h2 : ((n : ℕ) : ℚ) < ((2 * bs : ℕ) : ℚ) := by exact_mod_cast h
      push_cast at h2
      linarith
  refine ⟨hiff, ?_, ?_⟩
  · intro h
    have heff : effBatchSize n bs = n := by simp [effBatchSize, h]
    refine ⟨heff, ?_⟩
    simp [numBatches, heff, Nat.div_self (show 0 < n by omega)]
  · intro h
    have heff : effBatchSize n bs = bs := by simp [effBatchSize, h]
    refine ⟨heff, by simp [numBatches, heff], ?_⟩
    have h1 := Nat.div_add_mod n bs
    have h2 := Nat.mod_lt n (show 0 < bs by omega)
    omega

/-- Witness for C8: 5 examples with requested batch size 3 — the batch
size exceeds half the dataset, so it is clamped to 5 and one batch runs
per epoch. -/
theorem C8_batch_sizing_witness :
    1 ≤ 3 ∧ 1 ≤ 5 ∧
    ((((5 : ℕ) : ℚ) / 2 < ((3 : ℕ) : ℚ) ↔ (5 : ℕ) < 2 * 3) ∧
    (((5 : ℕ) : ℚ) / 2 < ((3 : ℕ) : ℚ) →
      effBatchSize 5 3 = 5 ∧ numBatches 5 3 = 1) ∧
    (¬ ((5 : ℕ) : ℚ) / 2 < ((3 : ℕ) : ℚ) →
      effBatchSize 5 3 = 3 ∧ numBatches 5 3 = 5 / 3 ∧
        5 - 3 * (5 / 3) < 3)) :=
  ⟨by norm_num, by norm_num,
    C8_batch_sizing 5 3 (by norm_num) (by norm_num)⟩

/-- C1 (the code evaluated at the failing input): on a pipeline of an
input layer and a compiled `Dropout(0.3)`, a fit call over two paired
examples and labels with batch size 2, one epoch, and the identity
shuffle raises `TypeError` at the first batch: the training step
forward-propagates through `self.predict`, whose call
`layer.forward(inputs_propagated)` omits the `in_training` argument that
`Dropout.forward` requires, so no batch is ever forward-propagated in
training mode. -/
theorem C1_fit_never_in_training_mode :
    modelC1.fit ⟨[2, 2], [1, 1, 2, 2]⟩ ⟨[2, 2], [1, 0, 0, 1]⟩ 2 1 1
      (fun _ => [0, 1]) = .error .typeError := by
  norm_num [Model.fit, modelC1, effBatchSize, fitLoop, runEpoch,
    gatherRows, rowWidth, batchLoop, runBatch, forwardPass,
    Layer.forwardCall, sliceRows, inLayer2, plainLoss, dropFit,
    Bind.bind, Except.bind]

/-- C2 (the code evaluated at the failing input): on a pipeline of an
input layer and a compiled `Dropout(0.3)` with 3 units, `predict` on the
row `[1, 2, 3]` raises `TypeError` instead of returning outputs: its
call `layer.forward(inputs_propagated)` passes no `in_training` argument
at all, and `Dropout.forward` requires one. -/
theorem C2_predict_no_inference_flag :
    modelC2.predict ⟨[1, 3], [1, 2, 3]⟩ = .error .typeError := by
  norm_num [Model.predict, modelC2, forwardPass, Layer.forwardCall,
    inLayer3, Bind.bind, Except.bind]

/-- C3 (the code evaluated at the failing input): constructing a model
from an input layer of width 3 and a fresh `Dropout(0.3)` — the shape of
the `main.py` pipeline — raises `TypeError` during the wiring loop: the
call `layer.compile(model_layers[layer_idx - 1].UNITS)` passes a single
argument where `Dropout.compile` requires both a position and an input
width, so no layer position is ever supplied and the constructor never
returns a wired model. -/
theorem C3_construction_wiring_fails :
    Model.init plainLoss [.foreign inLayer3, .dropout dropNew] =
      .error .typeError := by
  norm_num [Model.init, checkLayersFrom, connectLayers, connectFrom,
    Layer.verify_layer, Layer.isInputLayer, Layer.UNITSattr,
    Layer.compileCall, inLayer3, dropNew, Bind.bind, Except.bind]

/-- Helper for the history contract: the epoch loop records one entry
per remaining epoch, and the entry for relative epoch `j` is the
loss-contract scalar of a full-training-set forward pass in the state
reached after that epoch's batches. -/
theorem fitLoop_history (L : Loss) (examples labels : NDArray)
    (n bs : ℕ) (lr : ℚ) (perms : ℕ → List ℕ) (k : ℕ) :
    ∀ (e : ℕ) (ls ls' : List Layer) (hist : List ℚ),
      fitLoop L examples labels n bs lr perms ls e k = .ok (ls', hist) →
      hist.length = k ∧
      ∀ j, j < k → ∃ ls_j lsb lso outs,
        epochChain L examples labels n bs lr perms ls e j = .ok ls_j ∧
        runEpoch L ls_j examples labels n bs lr (perms (e + j)) =
          .ok lsb ∧
        forwardPass lsb examples = .ok (lso, outs) ∧
        hist[j]? = some (L.calculate outs labels) := by
  induction k with
  | zero =>
    intro e ls ls' hist h
    simp only [fitLoop, Except.ok.injEq, Prod.mk.injEq] at h
    obtain ⟨-, h2⟩ := h
    subst h2
    exact ⟨rfl, fun j hj => absurd hj (by omega)⟩
  | succ kk ih =>
    intro e ls ls' hist h
    simp only [fitLoop, Bind.bind, Except.bind] at h
    cases hRE : runEpoch L ls examples labels n bs lr (perms e) with
    | error err => rw [hRE] at h; exact absurd h (by simp)
    | ok lsA =>
      rw [hRE] at h
      dsimp only at h
      cases hFP : forwardPass lsA examples with
      | error err => rw [hFP] at h; exact absurd h (by simp)
      | ok pA =>
        obtain ⟨ls₂, outs⟩ := pA
        rw [hFP] at h
        dsimp only at h
        cases hFL : fitLoop L examples labels n bs lr perms ls₂
            (e + 1) kk with
        | error err => rw [hFL] at h; exact absurd h (by simp)
        | ok pB =>
          obtain ⟨ls₃, hist'⟩ := pB
          rw [hFL] at h
          dsimp only at h
          simp only [Except.ok.injEq, Prod.mk.injEq] at h
          obtain ⟨-, h2⟩ := h
          subst h2
          obtain ⟨ihlen, ihspec⟩ := ih (e + 1) ls₂ ls₃ hist' hFL
          refine ⟨by simp [ihlen], ?_⟩
          intro j hj
          cases j with
          | zero =>
            refine ⟨ls, lsA, ls₂, outs, by simp [epochChain], ?_, hFP,
              by simp⟩
            simpa using hRE
          | succ jj =>
            obtain ⟨ls_j, lsb, lso, outs', hchain, hre, hfp, hhist⟩ :=
              ihspec jj (by omega)
            refine ⟨ls_j, lsb, lso, outs', ?_, ?_, hfp, ?_⟩
            · simp only [epochChain, Bind.bind, Except.bind, hRE, hFP]
              exact hchain
            · have harith : e + (jj + 1) = (e + 1) + jj := by omega
              rw [harith]
              exact hre
            · simpa using hhist

/-- C9: every `fit` call that completes returns the ordered per-epoch
loss sequence: its length is exactly `epochs`, and the entry for epoch
`e` is the loss contract's `calculate` over a forward pass of the entire
training set in the state reached after all of epoch `e`'s batches — the
loss over the whole dataset, not the last batch's loss. -/
theorem C9_fit_history (m : Model) (examples labels : NDArray)
    (batch_size epochs : ℕ) (lr : ℚ) (perms : ℕ → List ℕ)
    (hist : List ℚ)
    (h : m.fit examples labels batch_size epochs lr perms = .ok hist) :
    recordedHistorySpec m.LOSS m.LAYERS examples labels batch_size
      epochs lr perms hist := by
  unfold Model.fit at h
  by_cases hb : batch_size < 1
  · rw [if_pos hb] at h
    exact absurd h (by simp)
  rw [if_neg hb] at h
  by_cases he : epochs < 1
  · rw [if_pos he] at h
    exact absurd h (by simp)
  rw [if_neg he] at h
  cases hsh : examples.shape with
  | nil =>
    rw [hsh] at h
    exact absurd h (by simp)
  | cons n rest =>
    rw [hsh] at h
    dsimp only at h
    cases hfl : fitLoop m.LOSS examples labels n
        (effBatchSize n batch_size) lr perms m.LAYERS 0 epochs with
    | error err =>
      rw [hfl] at h
      exact absurd h (by simp)
    | ok p =>
      obtain ⟨lsf, hist0⟩ := p
      rw [hfl] at h
      dsimp only at h
      simp only [Except.ok.injEq] at h
      subst h
      obtain ⟨hlen, hspec⟩ := fitLoop_history m.LOSS examples labels n
        (effBatchSize n batch_size) lr perms epochs 0 m.LAYERS lsf
        hist0 hfl
      refine ⟨hlen, ?_⟩
      intro e he2
      obtain ⟨ls_j, lsb, lso, outs, hchain, hre, hfp, hh⟩ := hspec e he2
      exact ⟨n, ls_j, lsb, lso, outs, by rw [hsh]; rfl, hchain,
        by simpa using hre, hfp, hh⟩

/-- Witness for C9: the single-layer identity pipeline runs one epoch on
a one-example dataset to completion; the recorded history is exactly
`[5]`, the full-training-set loss after the epoch's batches. -/
theorem C9_fit_history_witness :
    modelC9.fit ⟨[1, 1], [5]⟩ ⟨[1, 1], [1]⟩ 1 1 1 (fun _ => [0]) =
      .ok [5] ∧
    recordedHistorySpec modelC9.LOSS modelC9.LAYERS ⟨[1, 1], [5]⟩
      ⟨[1, 1], [1]⟩ 1 1 1 (fun _ => [0]) [5] := by
  have hfit : modelC9.fit ⟨[1, 1], [5]⟩ ⟨[1, 1], [1]⟩ 1 1 1
      (fun _ => [0]) = .ok [5] := by
    norm_num [Model.fit, modelC9, effBatchSize, fitLoop, runEpoch,
      gatherRows, rowWidth, batchLoop, runBatch, forwardPass,
      backwardPass, updateAll, Layer.forwardCall, Layer.backwardCall,
      Layer.IS_TRAINABLE, sliceRows, inLayer1, Bind.bind, Except.bind]
  exact ⟨hfit, C9_fit_history modelC9 ⟨[1, 1], [5]⟩ ⟨[1, 1], [1]⟩ 1 1 1
    (fun _ => [0]) [5] hfit⟩
